import Mathlib

/-!
Shallow embedding of the bevy_chess repository (src/lib.rs, src/main.rs).

The f32 arithmetic of the Rust source is modelled over the real numbers ℝ
(no rounding).  Engine queries that can fail are modelled with Option:
a Rust .unwrap() on a failed lookup is a panic, modelled as an Option.none
result of the whole system.  Vector and quaternion operations follow the
glam / bevy_math implementations used by the crate.
-/

namespace BevyChess

open scoped Classical

/-- Real 2D vector, modelling glam Vec2 (used for mouse deltas). -/
@[ext]
structure Vec2 where
  x : ℝ
  y : ℝ

/-- Vec2::ZERO. -/
noncomputable def Vec2.zero : Vec2 := ⟨0, 0⟩

/-- Real 3D vector, modelling glam Vec3. -/
@[ext]
structure Vec3 where
  x : ℝ
  y : ℝ
  z : ℝ

/-- Vec3::ZERO. -/
noncomputable def Vec3.zero : Vec3 := ⟨0, 0, 0⟩

/-- Componentwise addition, modelling glam Vec3 add. -/
noncomputable def Vec3.add (a b : Vec3) : Vec3 := ⟨a.x + b.x, a.y + b.y, a.z + b.z⟩

/-- Componentwise subtraction, modelling glam Vec3 sub. -/
noncomputable def Vec3.sub (a b : Vec3) : Vec3 := ⟨a.x - b.x, a.y - b.y, a.z - b.z⟩

/-- Componentwise negation, modelling glam Vec3 neg. -/
noncomputable def Vec3.neg (a : Vec3) : Vec3 := ⟨-a.x, -a.y, -a.z⟩

/-- Scalar multiplication, modelling glam Vec3 mul by an f32. -/
noncomputable def Vec3.smul (a : Vec3) (s : ℝ) : Vec3 := ⟨a.x * s, a.y * s, a.z * s⟩

/-- Dot product, modelling glam Vec3::dot. -/
noncomputable def Vec3.dot (a b : Vec3) : ℝ := a.x * b.x + a.y * b.y + a.z * b.z

/-- Cross product, modelling glam Vec3::cross. -/
noncomputable def Vec3.cross (a b : Vec3) : Vec3 :=
  ⟨a.y * b.z - a.z * b.y, a.z * b.x - a.x * b.z, a.x * b.y - a.y * b.x⟩

/-- Euclidean length, modelling glam Vec3::length. -/
noncomputable def Vec3.norm (a : Vec3) : ℝ := Real.sqrt (Vec3.dot a a)

/-- Normalization, modelling glam Vec3::normalize (self * length.recip()). -/
noncomputable def Vec3.normalize (a : Vec3) : Vec3 := a.smul (Vec3.norm a)⁻¹

/-- Real quaternion (x, y, z, w), modelling glam Quat. -/
@[ext]
structure Quat where
  x : ℝ
  y : ℝ
  z : ℝ
  w : ℝ

/-- Hamilton product, modelling glam Quat::mul. -/
noncomputable def Quat.mul (p q : Quat) : Quat :=
  ⟨p.w * q.x + p.x * q.w + p.y * q.z - p.z * q.y,
   p.w * q.y - p.x * q.z + p.y * q.w + p.z * q.x,
   p.w * q.z + p.x * q.y - p.y * q.x + p.z * q.w,
   p.w * q.w - p.x * q.x - p.y * q.y - p.z * q.z⟩

/-- Quat::from_rotation_x(angle). -/
noncomputable def Quat.from_rotation_x (angle : ℝ) : Quat :=
  ⟨Real.sin (angle / 2), 0, 0, Real.cos (angle / 2)⟩

/-- Quat::from_rotation_y(angle): rotation about the world vertical axis. -/
noncomputable def Quat.from_rotation_y (angle : ℝ) : Quat :=
  ⟨0, Real.sin (angle / 2), 0, Real.cos (angle / 2)⟩

/-- Quat::from_rotation_z(angle). -/
noncomputable def Quat.from_rotation_z (angle : ℝ) : Quat :=
  ⟨0, 0, Real.sin (angle / 2), Real.cos (angle / 2)⟩

/-- Rotation of a vector by a quaternion, modelling glam Quat::mul_vec3:
v * (w^2 - dot b b) + b * (dot v b * 2) + cross b v * (w * 2), with b the
vector part. -/
noncomputable def Quat.mulVec3 (q : Quat) (v : Vec3) : Vec3 :=
  let b : Vec3 := ⟨q.x, q.y, q.z⟩
  ((v.smul (q.w * q.w - Vec3.dot b b)).add (b.smul (Vec3.dot v b * 2))).add
    ((Vec3.cross b v).smul (q.w * 2))

/-- Quat::from_euler(EulerRot::YXZ, a, b, c): the composed rotation
Y(a) * X(b) * Z(c) (extrinsic yaw, pitch, roll). -/
noncomputable def Quat.fromEulerYXZ (a b c : ℝ) : Quat :=
  Quat.mul (Quat.from_rotation_y a) (Quat.mul (Quat.from_rotation_x b) (Quat.from_rotation_z c))

/-- Four-quadrant arctangent, modelling f32::atan2 via the complex argument. -/
noncomputable def atan2 (y x : ℝ) : ℝ := Complex.arg ⟨x, y⟩

/-- Models glam Quat::to_euler(EulerRot::YXZ): extraction of (yaw, pitch, roll)
from the rotation-matrix entries of a unit quaternion, pitch by a clamped
arcsine (Real.arcsin is the clamped arcsine), yaw and roll by atan2. -/
noncomputable def Quat.toEulerYXZ (q : Quat) : ℝ × ℝ × ℝ :=
  (atan2 (2 * (q.x * q.z + q.w * q.y)) (1 - 2 * (q.x * q.x + q.y * q.y)),
   Real.arcsin (2 * (q.w * q.x - q.y * q.z)),
   atan2 (2 * (q.x * q.y + q.w * q.z)) (1 - 2 * (q.x * q.x + q.z * q.z)))

/-- Bevy Transform restricted to the fields this code touches. -/
structure Transform where
  translation : Vec3
  rotation : Quat

/-- Transform::local_x: Dir3::new_unchecked((rotation * Vec3::X).normalize()). -/
noncomputable def Transform.local_x (t : Transform) : Vec3 :=
  Vec3.normalize (Quat.mulVec3 t.rotation ⟨1, 0, 0⟩)

/-- Transform::local_z: Dir3::new_unchecked((rotation * Vec3::Z).normalize()). -/
noncomputable def Transform.local_z (t : Transform) : Vec3 :=
  Vec3.normalize (Quat.mulVec3 t.rotation ⟨0, 0, 1⟩)

/-- Transform::forward() = -local_z(). -/
noncomputable def Transform.forward (t : Transform) : Vec3 := Vec3.neg t.local_z

/-- Transform::right() = local_x(). -/
noncomputable def Transform.right (t : Transform) : Vec3 := t.local_x

/-- Transform::rotate(rotation): self.rotation = rotation * self.rotation. -/
noncomputable def Transform.rotate (t : Transform) (rotation : Quat) : Transform :=
  { t with rotation := Quat.mul rotation t.rotation }

/-- Transform::rotate_y(angle): rotate(Quat::from_rotation_y(angle)). -/
noncomputable def Transform.rotate_y (t : Transform) (angle : ℝ) : Transform :=
  t.rotate (Quat.from_rotation_y angle)

/-- bevy CursorGrabMode. -/
inductive CursorGrabMode where
  | none
  | confined
  | locked
deriving DecidableEq

/-- The cursor fields of bevy Window::cursor_options touched by move_camera. -/
structure CursorOptions where
  grab_mode : CursorGrabMode
  visible : Bool
deriving DecidableEq

/-- bevy Window restricted to the fields this code touches. -/
structure Window where
  cursor_options : CursorOptions
deriving DecidableEq

/-- The systems of lib.rs, as schedule-registration identifiers. -/
inductive SystemId where
  | setup_camera
  | setup_lights
  | setup_board
  | move_camera_system
  | draw_mesh_intersections
deriving DecidableEq

/-- Startup-schedule registration from GamePlugin::build:
app.add_systems(Startup, (setup_camera, setup_lights, setup_board)). -/
def startupSystems : List SystemId :=
  [SystemId.setup_camera, SystemId.setup_lights, SystemId.setup_board]

/-- Update-schedule registration from GamePlugin::build, line 31 of lib.rs:
app.add_systems(Update, (/*move_camera,*/draw_mesh_intersections)); —
move_camera is commented out, only draw_mesh_intersections is registered. -/
def updateSystems : List SystemId :=
  [SystemId.draw_mesh_intersections]

/-- Per-frame inputs read by move_camera: the accumulated mouse-motion delta,
the middle-mouse-button edges, the six movement-key levels, and the frame's
elapsed seconds. -/
structure MoveCameraInput where
  mouseDelta : Vec2
  middleJustPressed : Bool
  middleJustReleased : Bool
  keyW : Bool
  keyS : Bool
  keyA : Bool
  keyD : Bool
  keyE : Bool
  keyQ : Bool
  deltaSecs : ℝ

/-- The mutable world state move_camera touches: the Camera3d transforms (a
query, iterated in order), the single primary window if it exists, and the
single EguiContext if it exists (its Bool is wants_pointer_input()). -/
structure MoveCameraState where
  cameras : List Transform
  window : Option Window
  eguiContext : Option Bool

/-- PITCH_LIMIT = FRAC_PI_2 - 0.01 (lib.rs line 215). -/
noncomputable def PITCH_LIMIT : ℝ := Real.pi / 2 - 0.01

/-- The mouse-look block of move_camera (lib.rs lines 195-219): if the
accumulated delta is non-zero, decompose the rotation in YXZ Euler order, add
-delta.x * 0.003 to yaw and -delta.y * 0.002 to pitch, clamp pitch to
±PITCH_LIMIT (Rust clamp(lo, hi) = min (max x lo) hi), and recompose from
(new yaw, clamped pitch, unchanged roll).  No delta-time factor appears. -/
noncomputable def lookUpdate (rotation : Quat) (delta : Vec2) : Quat :=
  if delta = Vec2.zero then rotation
  else
    let delta_yaw := -delta.x * 0.003
    let delta_pitch := -delta.y * 0.002
    let e := Quat.toEulerYXZ rotation
    let yaw := e.1 + delta_yaw
    let pitch := min (max (e.2.1 + delta_pitch) (-PITCH_LIMIT)) PITCH_LIMIT
    Quat.fromEulerYXZ yaw pitch e.2.2

/-- The movement-direction accumulation of move_camera (lib.rs lines 163-188):
W adds forward(), S subtracts forward(), A subtracts right(), D adds right(),
E adds Vec3::Y, Q subtracts Vec3::Y, starting from Vec3::ZERO. -/
noncomputable def moveDirection (input : MoveCameraInput) (t : Transform) : Vec3 :=
  let d0 := Vec3.zero
  let d1 := if input.keyW then d0.add t.forward else d0
  let d2 := if input.keyS then d1.sub t.forward else d1
  let d3 := if input.keyA then d2.sub t.right else d2
  let d4 := if input.keyD then d3.add t.right else d3
  let d5 := if input.keyE then d4.add ⟨0, 1, 0⟩ else d4
  if input.keyQ then d5.sub ⟨0, 1, 0⟩ else d5

/-- The per-camera body of move_camera's loop (lib.rs lines 162-219): movement
integration (normalize the accumulated direction if non-zero and add
direction * 5.0 * delta_secs to the translation) followed by the mouse-look
rotation update. -/
noncomputable def updateCameraTransform (input : MoveCameraInput) (t : Transform) : Transform :=
  let direction := moveDirection input t
  let translation :=
    if direction = Vec3.zero then t.translation
    else t.translation.add ((direction.normalize.smul 5.0).smul input.deltaSecs)
  { translation := translation, rotation := lookUpdate t.rotation input.mouseDelta }

/-- The move_camera system (lib.rs lines 129-221).  Option.none models a
panic: the EguiContext lookup is unwrapped unconditionally (line 138).  Then:
on the middle button's release edge the window (if it exists) is set to
grab None / visible; on its press edge, when egui does not want pointer
input, the window (if it exists) is set to grab Locked / hidden; if the
window exists and is not Locked the system returns early; otherwise every
camera transform is updated. -/
noncomputable def move_camera (input : MoveCameraInput) (st : MoveCameraState) :
    Option MoveCameraState :=
  match st.eguiContext with
  | Option.none => Option.none
  | Option.some wantsPointer =>
    let window1 : Option Window :=
      if input.middleJustReleased then
        st.window.map fun w =>
          { w with cursor_options :=
              { w.cursor_options with grab_mode := CursorGrabMode.none, visible := true } }
      else st.window
    let window2 : Option Window :=
      if input.middleJustPressed && !wantsPointer then
        window1.map fun w =>
          { w with cursor_options :=
              { w.cursor_options with grab_mode := CursorGrabMode.locked, visible := false } }
      else window1
    match window2 with
    | Option.some w =>
      if w.cursor_options.grab_mode ≠ CursorGrabMode.locked then
        Option.some { st with window := Option.some w }
      else
        Option.some { st with window := Option.some w,
                              cameras := st.cameras.map (updateCameraTransform input) }
    | Option.none =>
      Option.some { st with window := Option.none,
                            cameras := st.cameras.map (updateCameraTransform input) }

/-- The rotate_on_drag observer (lib.rs lines 124-127): look up the dragged
entity's Transform (Option.none models the .unwrap() panic when it is
missing) and rotate_y by drag.delta.x * 0.02. -/
noncomputable def rotate_on_drag (delta : Vec2) (target : Option Transform) : Option Transform :=
  match target with
  | Option.none => Option.none
  | Option.some t => Option.some (t.rotate_y (delta.x * 0.02))

/-! Concrete fixtures used to instantiate the theorems below. -/

/-- Fixture: identity camera pose at the origin. -/
noncomputable def idTransform : Transform :=
  { translation := ⟨0, 0, 0⟩, rotation := ⟨0, 0, 0, 1⟩ }

/-- Fixture: a window whose cursor is locked and hidden. -/
def lockedWindow : Window :=
  { cursor_options := { grab_mode := CursorGrabMode.locked, visible := false } }

/-- Fixture: a window whose cursor is released and visible. -/
def freeWindow : Window :=
  { cursor_options := { grab_mode := CursorGrabMode.none, visible := true } }

/-- Fixture: a frame with no input at all and one second of frame time. -/
noncomputable def idleInput : MoveCameraInput :=
  { mouseDelta := ⟨0, 0⟩, middleJustPressed := false, middleJustReleased := false,
    keyW := false, keyS := false, keyA := false, keyD := false, keyE := false,
    keyQ := false, deltaSecs := 1 }

/-! Helper lemmas. -/

/-- Shared unfolding: with an egui context present, a locked primary window
and no middle-button edge this frame, move_camera maps every camera
transform through the per-camera update. -/
theorem move_camera_locked_step (input : MoveCameraInput) (st : MoveCameraState)
    (w : Window) (b : Bool)
    (h1 : st.eguiContext = Option.some b) (h2 : st.window = Option.some w)
    (h3 : w.cursor_options.grab_mode = CursorGrabMode.locked)
    (h4 : input.middleJustReleased = false) (h5 : input.middleJustPressed = false) :
    move_camera input st =
      Option.some { st with window := Option.some w,
                            cameras := st.cameras.map (updateCameraTransform input) } := by
  unfold move_camera
  rw [h1]
  dsimp only
  rw [h4, h5, h2]
  simp [h3]

/-- A zero accumulated mouse delta skips the look block entirely. -/
theorem lookUpdate_zero (q : Quat) : lookUpdate q Vec2.zero = q := by
  simp [lookUpdate]

/-- A non-zero vector has positive squared length. -/
theorem dot_self_pos (v : Vec3) (h : v ≠ Vec3.zero) : 0 < Vec3.dot v v := by
  rcases v with ⟨x, y, z⟩
  have h' : ¬(x = 0 ∧ y = 0 ∧ z = 0) := by
    intro ⟨hx, hy, hz⟩
    exact h (by simp [Vec3.zero, hx, hy, hz])
  simp only [Vec3.dot]
  rcases not_and_or.mp h' with hx | hyz
  · nlinarith [mul_self_nonneg y, mul_self_nonneg z, mul_self_pos.mpr hx]
  · rcases not_and_or.mp hyz with hy | hz
    · nlinarith [mul_self_nonneg x, mul_self_nonneg z, mul_self_pos.mpr hy]
    · nlinarith [mul_self_nonneg x, mul_self_nonneg y, mul_self_pos.mpr hz]

/-- Normalizing a non-zero vector yields a unit-length vector. -/
theorem norm_normalize (v : Vec3) (h : v ≠ Vec3.zero) : Vec3.norm (Vec3.normalize v) = 1 := by
  have hp : 0 < Vec3.dot v v := dot_self_pos v h
  have hn : Vec3.norm v = Real.sqrt (Vec3.dot v v) := rfl
  have hnn : Vec3.norm v * Vec3.norm v = Vec3.dot v v := by
    rw [hn]; exact Real.mul_self_sqrt hp.le
  have hpos : 0 < Vec3.norm v := by
    rw [hn]; exact Real.sqrt_pos.mpr hp
  rcases v with ⟨x, y, z⟩
  simp only [Vec3.norm, Vec3.normalize, Vec3.smul, Vec3.dot] at *
  have key : x * (Real.sqrt (x * x + y * y + z * z))⁻¹ *
        (x * (Real.sqrt (x * x + y * y + z * z))⁻¹) +
      y * (Real.sqrt (x * x + y * y + z * z))⁻¹ *
        (y * (Real.sqrt (x * x + y * y + z * z))⁻¹) +
      z * (Real.sqrt (x * x + y * y + z * z))⁻¹ *
        (z * (Real.sqrt (x * x + y * y + z * z))⁻¹) = 1 := by
    have hs : Real.sqrt (x * x + y * y + z * z) ≠ 0 := ne_of_gt hpos
    field_simp
  rw [key, Real.sqrt_one]

/-! Claim C1.  GamePlugin::build registers the Update systems on line 31 of
lib.rs with move_camera commented out, so the claim that the engine invokes
move_camera each frame fails; only draw_mesh_intersections runs in Update. -/

/-- C1 counterexample: move_camera is not registered in the Update schedule
built by GamePlugin::build, contrary to the claim. -/
theorem c1_counterexample : SystemId.move_camera_system ∉ updateSystems := by decide

/-- C1 (amended): GamePlugin::build registers only draw_mesh_intersections in
the Update schedule; move_camera appears in neither the Update nor the
Startup registration, so the host engine never invokes it. -/
theorem c1_update_registration :
    updateSystems = [SystemId.draw_mesh_intersections] ∧
    SystemId.move_camera_system ∉ updateSystems ∧
    SystemId.move_camera_system ∉ startupSystems := by decide

/-! Claim C9.  move_camera unconditionally unwraps only the EguiContext
lookup (line 138); the camera query is iterated (no unwrap: an empty query
runs the loop body zero times) and every window access is behind if-let, so
missing camera or window entities do not panic. -/

/-- C9 counterexample: invoking move_camera in a state with no camera entity
and no primary window entity (but an egui context present) returns normally
instead of crashing. -/
theorem c9_counterexample :
    move_camera
      { mouseDelta := ⟨1, 1⟩, middleJustPressed := false, middleJustReleased := false,
        keyW := false, keyS := false, keyA := false, keyD := false, keyE := false,
        keyQ := false, deltaSecs := 1 }
      { cameras := [], window := Option.none, eguiContext := Option.some false } ≠
    Option.none := by
  simp [move_camera]

/-- C9 (amended): the only lookup move_camera unconditionally unwraps is the
single EguiContext: its absence is a fatal, immediate panic, while with it
present the system always returns normally, whatever the camera and window
state. -/
theorem c9_unwraps_egui_only (input : MoveCameraInput) (st : MoveCameraState) :
    (st.eguiContext = Option.none → move_camera input st = Option.none) ∧
    (∀ b, st.eguiContext = Option.some b → (move_camera input st).isSome = true) := by
  constructor
  · intro h
    unfold move_camera
    rw [h]
  · intro b h
    unfold move_camera
    rw [h]
    dsimp only
    split <;> (try split) <;> simp

/-- C9 witness: the amended theorem applied at concrete states, one missing
the egui context (panic) and one with it present (normal return). -/
theorem c9_witness :
    ((Option.none : Option Bool) = Option.none →
      move_camera
        { mouseDelta := ⟨0, 0⟩, middleJustPressed := false, middleJustReleased := false,
          keyW := false, keyS := false, keyA := false, keyD := false, keyE := false,
          keyQ := false, deltaSecs := 1 }
        { cameras := [], window := Option.none, eguiContext := Option.none } = Option.none) ∧
    (move_camera
        { mouseDelta := ⟨0, 0⟩, middleJustPressed := false, middleJustReleased := false,
          keyW := false, keyS := false, keyA := false, keyD := false, keyE := false,
          keyQ := false, deltaSecs := 1 }
        { cameras := [], window := Option.none, eguiContext := Option.some true }).isSome = true :=
  ⟨fun _ =>
    (c9_unwraps_egui_only _
      { cameras := [], window := Option.none, eguiContext := Option.none }).1 rfl,
   (c9_unwraps_egui_only _
      { cameras := [], window := Option.none, eguiContext := Option.some true }).2 true rfl⟩

/-! Claim C10.  The early-return guard (lib.rs lines 156-160) is inside
if-let Ok(window): when the primary-window lookup fails the guard is never
evaluated and the system falls through to the camera loop. -/

/-- C10: when the primary-window lookup fails, move_camera does not return
early at the cursor-lock check: every camera transform is still updated with
keyboard movement and mouse-look. -/
theorem c10_no_window_proceeds (input : MoveCameraInput) (st : MoveCameraState) (b : Bool)
    (h1 : st.eguiContext = Option.some b) (h2 : st.window = Option.none) :
    move_camera input st =
      Option.some { st with window := Option.none,
                            cameras := st.cameras.map (updateCameraTransform input) } := by
  unfold move_camera
  rw [h1]
  dsimp only
  rw [h2]
  simp only [Option.map_none', ite_self]

/-- C10 witness: one camera at the origin, no window, egui present and a
movement key held: the camera list is mapped through the update. -/
theorem c10_witness :
    ({ cameras := [{ translation := ⟨0, 0, 0⟩, rotation := ⟨0, 0, 0, 1⟩ }],
       window := Option.none, eguiContext := Option.some false } :
        MoveCameraState).eguiContext = Option.some false ∧
    ({ cameras := [{ translation := ⟨0, 0, 0⟩, rotation := ⟨0, 0, 0, 1⟩ }],
       window := Option.none, eguiContext := Option.some false } :
        MoveCameraState).window = Option.none ∧
    move_camera
      { mouseDelta := ⟨0, 0⟩, middleJustPressed := false, middleJustReleased := false,
        keyW := false, keyS := false, keyA := false, keyD := false, keyE := true,
        keyQ := false, deltaSecs := 1 }
      { cameras := [{ translation := ⟨0, 0, 0⟩, rotation := ⟨0, 0, 0, 1⟩ }],
        window := Option.none, eguiContext := Option.some false } =
      Option.some
        { cameras :=
            [{ translation := ⟨0, 0, 0⟩, rotation := ⟨0, 0, 0, 1⟩ }].map
              (updateCameraTransform
                { mouseDelta := ⟨0, 0⟩, middleJustPressed := false, middleJustReleased := false,
                  keyW := false, keyS := false, keyA := false, keyD := false, keyE := true,
                  keyQ := false, deltaSecs := 1 }),
          window := Option.none, eguiContext := Option.some false } :=
  ⟨rfl, rfl,
   c10_no_window_proceeds _
     { cameras := [{ translation := ⟨0, 0, 0⟩, rotation := ⟨0, 0, 0, 1⟩ }],
       window := Option.none, eguiContext := Option.some false } false rfl rfl⟩

/-! Claim C2.  The mouse-look block (lib.rs lines 195-219). -/

/-- C2: while engaged (cursor locked) with a non-zero accumulated mouse
delta, every camera rotation is recomposed from the YXZ decomposition of the
current quaternion with yaw delta -dx * 0.003, pitch delta -dy * 0.002
clamped, and the roll component passed through verbatim; the rotation update
carries no frame-time factor (it is invariant under any change of
deltaSecs). -/
theorem c2_mouse_look (input : MoveCameraInput) (st : MoveCameraState) (w : Window) (b : Bool)
    (h1 : st.eguiContext = Option.some b) (h2 : st.window = Option.some w)
    (h3 : w.cursor_options.grab_mode = CursorGrabMode.locked)
    (h4 : input.middleJustReleased = false) (h5 : input.middleJustPressed = false)
    (h6 : input.mouseDelta ≠ Vec2.zero) :
    move_camera input st =
      Option.some { st with window := Option.some w,
                            cameras := st.cameras.map (updateCameraTransform input) } ∧
    (∀ t : Transform,
      (updateCameraTransform input t).rotation =
        Quat.fromEulerYXZ
          ((Quat.toEulerYXZ t.rotation).1 + -input.mouseDelta.x * 0.003)
          (min (max ((Quat.toEulerYXZ t.rotation).2.1 + -input.mouseDelta.y * 0.002)
            (-PITCH_LIMIT)) PITCH_LIMIT)
          (Quat.toEulerYXZ t.rotation).2.2) ∧
    (∀ (t : Transform) (dt : ℝ),
      (updateCameraTransform { input with deltaSecs := dt } t).rotation =
        (updateCameraTransform input t).rotation) := by
  refine ⟨move_camera_locked_step input st w b h1 h2 h3 h4 h5, ?_, ?_⟩
  · intro t
    dsimp only [updateCameraTransform, lookUpdate]
    rw [if_neg h6]
  · intro t dt
    rfl

/-- C2 witness: the theorem applied at an engaged state with one camera and
mouse delta (1, 2). -/
theorem c2_witness :
    ({ cameras := [idTransform], window := Option.some lockedWindow,
       eguiContext := Option.some false } : MoveCameraState).eguiContext = Option.some false ∧
    ({ cameras := [idTransform], window := Option.some lockedWindow,
       eguiContext := Option.some false } : MoveCameraState).window = Option.some lockedWindow ∧
    lockedWindow.cursor_options.grab_mode = CursorGrabMode.locked ∧
    ({ idleInput with mouseDelta := ⟨1, 2⟩ }).middleJustReleased = false ∧
    ({ idleInput with mouseDelta := ⟨1, 2⟩ }).middleJustPressed = false ∧
    ({ idleInput with mouseDelta := ⟨1, 2⟩ }).mouseDelta ≠ Vec2.zero ∧
    (move_camera { idleInput with mouseDelta := ⟨1, 2⟩ }
        { cameras := [idTransform], window := Option.some lockedWindow,
          eguiContext := Option.some false } =
      Option.some
        { cameras := [idTransform].map
            (updateCameraTransform { idleInput with mouseDelta := ⟨1, 2⟩ }),
          window := Option.some lockedWindow, eguiContext := Option.some false } ∧
      (∀ t : Transform,
        (updateCameraTransform { idleInput with mouseDelta := ⟨1, 2⟩ } t).rotation =
          Quat.fromEulerYXZ
            ((Quat.toEulerYXZ t.rotation).1 +
              -({ idleInput with mouseDelta := (⟨1, 2⟩ : Vec2) }).mouseDelta.x * 0.003)
            (min (max ((Quat.toEulerYXZ t.rotation).2.1 +
              -({ idleInput with mouseDelta := (⟨1, 2⟩ : Vec2) }).mouseDelta.y * 0.002)
              (-PITCH_LIMIT)) PITCH_LIMIT)
            (Quat.toEulerYXZ t.rotation).2.2) ∧
      (∀ (t : Transform) (dt : ℝ),
        (updateCameraTransform
            { { idleInput with mouseDelta := (⟨1, 2⟩ : Vec2) } with deltaSecs := dt } t).rotation =
          (updateCameraTransform { idleInput with mouseDelta := ⟨1, 2⟩ } t).rotation)) :=
  ⟨rfl, rfl, rfl, rfl, rfl, by simp [idleInput, Vec2.zero],
   c2_mouse_look { idleInput with mouseDelta := ⟨1, 2⟩ }
     { cameras := [idTransform], window := Option.some lockedWindow,
       eguiContext := Option.some false } lockedWindow false rfl rfl rfl rfl rfl
     (by simp [idleInput, Vec2.zero])⟩

/-! Claim C4.  The movement block (lib.rs lines 162-193). -/

/-- C4: while engaged, for every combination of the six movement keys, a zero
accumulated direction leaves the camera position untouched (the zero vector
is never normalized), and a non-zero direction is normalized to unit length
and the position incremented by exactly direction * 5.0 * delta seconds. -/
theorem c4_movement (input : MoveCameraInput) (st : MoveCameraState) (w : Window) (b : Bool)
    (h1 : st.eguiContext = Option.some b) (h2 : st.window = Option.some w)
    (h3 : w.cursor_options.grab_mode = CursorGrabMode.locked)
    (h4 : input.middleJustReleased = false) (h5 : input.middleJustPressed = false) :
    move_camera input st =
      Option.some { st with window := Option.some w,
                            cameras := st.cameras.map (updateCameraTransform input) } ∧
    (∀ t : Transform, moveDirection input t = Vec3.zero →
      (updateCameraTransform input t).translation = t.translation) ∧
    (∀ t : Transform, moveDirection input t ≠ Vec3.zero →
      Vec3.norm (Vec3.normalize (moveDirection input t)) = 1 ∧
      (updateCameraTransform input t).translation =
        t.translation.add
          (((Vec3.normalize (moveDirection input t)).smul 5.0).smul input.deltaSecs)) := by
  refine ⟨move_camera_locked_step input st w b h1 h2 h3 h4 h5, ?_, ?_⟩
  · intro t ht
    dsimp only [updateCameraTransform]
    rw [if_pos ht]
  · intro t ht
    refine ⟨norm_normalize _ ht, ?_⟩
    dsimp only [updateCameraTransform]
    rw [if_neg ht]

/-- C4 witness: the theorem applied at an engaged state, with the up key (E)
held so the accumulated direction is the world up vector. -/
theorem c4_witness :
    ({ cameras := [idTransform], window := Option.some lockedWindow,
       eguiContext := Option.some true } : MoveCameraState).eguiContext = Option.some true ∧
    ({ cameras := [idTransform], window := Option.some lockedWindow,
       eguiContext := Option.some true } : MoveCameraState).window = Option.some lockedWindow ∧
    lockedWindow.cursor_options.grab_mode = CursorGrabMode.locked ∧
    ({ idleInput with keyE := true }).middleJustReleased = false ∧
    ({ idleInput with keyE := true }).middleJustPressed = false ∧
    (move_camera { idleInput with keyE := true }
        { cameras := [idTransform], window := Option.some lockedWindow,
          eguiContext := Option.some true } =
      Option.some
        { cameras := [idTransform].map
            (updateCameraTransform { idleInput with keyE := true }),
          window := Option.some lockedWindow, eguiContext := Option.some true } ∧
      (∀ t : Transform, moveDirection { idleInput with keyE := true } t = Vec3.zero →
        (updateCameraTransform { idleInput with keyE := true } t).translation = t.translation) ∧
      (∀ t : Transform, moveDirection { idleInput with keyE := true } t ≠ Vec3.zero →
        Vec3.norm (Vec3.normalize (moveDirection { idleInput with keyE := true } t)) = 1 ∧
        (updateCameraTransform { idleInput with keyE := true } t).translation =
          t.translation.add
            (((Vec3.normalize (moveDirection { idleInput with keyE := true } t)).smul 5.0).smul
              ({ idleInput with keyE := (true : Bool) }).deltaSecs))) :=
  ⟨rfl, rfl, rfl, rfl, rfl,
   c4_movement { idleInput with keyE := true }
     { cameras := [idTransform], window := Option.some lockedWindow,
       eguiContext := Option.some true } lockedWindow true rfl rfl rfl rfl rfl⟩

/-! Claim C8.  Zero mouse delta skips the look block (lib.rs line 196). -/

/-- C8: while engaged, a frame with zero accumulated mouse delta leaves every
camera's orientation quaternion (hence its yaw, pitch and roll) exactly
unchanged. -/
theorem c8_zero_delta_identity (input : MoveCameraInput) (st : MoveCameraState)
    (w : Window) (b : Bool)
    (h1 : st.eguiContext = Option.some b) (h2 : st.window = Option.some w)
    (h3 : w.cursor_options.grab_mode = CursorGrabMode.locked)
    (h4 : input.middleJustReleased = false) (h5 : input.middleJustPressed = false)
    (h6 : input.mouseDelta = Vec2.zero) :
    move_camera input st =
      Option.some { st with window := Option.some w,
                            cameras := st.cameras.map (updateCameraTransform input) } ∧
    ∀ t : Transform, (updateCameraTransform input t).rotation = t.rotation := by
  refine ⟨move_camera_locked_step input st w b h1 h2 h3 h4 h5, ?_⟩
  intro t
  dsimp only [updateCameraTransform]
  rw [h6, lookUpdate_zero]

/-- C8 witness: the theorem applied at an engaged state with the idle input,
whose mouse delta is zero. -/
theorem c8_witness :
    ({ cameras := [idTransform], window := Option.some lockedWindow,
       eguiContext := Option.some false } : MoveCameraState).eguiContext = Option.some false ∧
    ({ cameras := [idTransform], window := Option.some lockedWindow,
       eguiContext := Option.some false } : MoveCameraState).window = Option.some lockedWindow ∧
    lockedWindow.cursor_options.grab_mode = CursorGrabMode.locked ∧
    idleInput.middleJustReleased = false ∧
    idleInput.middleJustPressed = false ∧
    idleInput.mouseDelta = Vec2.zero ∧
    (move_camera idleInput
        { cameras := [idTransform], window := Option.some lockedWindow,
          eguiContext := Option.some false } =
      Option.some
        { cameras := [idTransform].map (updateCameraTransform idleInput),
          window := Option.some lockedWindow, eguiContext := Option.some false } ∧
      ∀ t : Transform, (updateCameraTransform idleInput t).rotation = t.rotation) :=
  ⟨rfl, rfl, rfl, rfl, rfl, rfl,
   c8_zero_delta_identity idleInput
     { cameras := [idTransform], window := Option.some lockedWindow,
       eguiContext := Option.some false } lockedWindow false rfl rfl rfl rfl rfl rfl⟩

/-! Claim C3.  The pitch clamp (lib.rs lines 215-218). -/

/-- C3: for every starting orientation and every non-empty sequence of
non-zero mouse deltas, the final orientation is recomposed from a pitch
angle lying within [-π/2 + 0.01, π/2 + 0.01], the clamp itself being applied
at ±(π/2 - 0.01). -/
theorem c3_pitch_invariant (q : Quat) (ds : List Vec2)
    (h1 : ds ≠ []) (h2 : ∀ d ∈ ds, d ≠ Vec2.zero) :
    ∃ a b c, ds.foldl lookUpdate q = Quat.fromEulerYXZ a b c ∧
      b = min (max b (-PITCH_LIMIT)) PITCH_LIMIT ∧
      -(Real.pi / 2) + 0.01 ≤ b ∧ b ≤ Real.pi / 2 + 0.01 := by
  rcases List.eq_nil_or_concat ds with rfl | ⟨l, d, rfl⟩
  · exact absurd rfl h1
  · have hd : d ≠ Vec2.zero := h2 d (by simp)
    rw [List.concat_eq_append, List.foldl_append]
    have hpi : (0.02 : ℝ) ≤ Real.pi / 2 := by nlinarith [Real.pi_gt_three]
    have hL : (0 : ℝ) ≤ PITCH_LIMIT := by unfold PITCH_LIMIT; linarith
    refine ⟨(Quat.toEulerYXZ (l.foldl lookUpdate q)).1 + -d.x * 0.003,
      min (max ((Quat.toEulerYXZ (l.foldl lookUpdate q)).2.1 + -d.y * 0.002)
        (-PITCH_LIMIT)) PITCH_LIMIT,
      (Quat.toEulerYXZ (l.foldl lookUpdate q)).2.2, ?_, ?_, ?_, ?_⟩
    · dsimp only [List.foldl, lookUpdate]
      rw [if_neg hd]
    · have hge : -PITCH_LIMIT ≤
          min (max ((Quat.toEulerYXZ (l.foldl lookUpdate q)).2.1 + -d.y * 0.002)
            (-PITCH_LIMIT)) PITCH_LIMIT :=
        le_min (le_max_right _ _) (by linarith)
      have hle :
          min (max ((Quat.toEulerYXZ (l.foldl lookUpdate q)).2.1 + -d.y * 0.002)
            (-PITCH_LIMIT)) PITCH_LIMIT ≤ PITCH_LIMIT := min_le_right _ _
      rw [max_eq_left hge, min_eq_left hle]
    · have : -(Real.pi / 2) + 0.01 = -PITCH_LIMIT := by unfold PITCH_LIMIT; ring
      rw [this]
      exact le_min (le_max_right _ _) (by linarith)
    · calc min (max ((Quat.toEulerYXZ (l.foldl lookUpdate q)).2.1 + -d.y * 0.002)
            (-PITCH_LIMIT)) PITCH_LIMIT ≤ PITCH_LIMIT := min_le_right _ _
        _ ≤ Real.pi / 2 + 0.01 := by unfold PITCH_LIMIT; linarith

/-- C3 witness: the theorem applied to the identity orientation and the
single non-zero delta (0, 1). -/
theorem c3_witness :
    ([(⟨0, 1⟩ : Vec2)] ≠ ([] : List Vec2)) ∧
    (∀ d ∈ [(⟨0, 1⟩ : Vec2)], d ≠ Vec2.zero) ∧
    ∃ a b c, [(⟨0, 1⟩ : Vec2)].foldl lookUpdate (⟨0, 0, 0, 1⟩ : Quat) =
        Quat.fromEulerYXZ a b c ∧
      b = min (max b (-PITCH_LIMIT)) PITCH_LIMIT ∧
      -(Real.pi / 2) + 0.01 ≤ b ∧ b ≤ Real.pi / 2 + 0.01 := by
  have h2 : ∀ d ∈ [(⟨0, 1⟩ : Vec2)], d ≠ Vec2.zero := by
    intro d hd
    rw [List.mem_singleton] at hd
    subst hd
    simp [Vec2.zero]
  exact ⟨by simp, h2, c3_pitch_invariant ⟨0, 0, 0, 1⟩ [⟨0, 1⟩] (by simp) h2⟩

/-! Claim C5.  The engage/release toggling (lib.rs lines 140-154). -/

/-- C5: starting from a released (grab None) window with no competing UI
pointer focus, a press frame of the middle button locks and hides the
cursor, and a following release frame unlocks it and makes it visible
again: grab mode goes None to Locked to None and visibility mirrors it. -/
theorem c5_engage_release_cycle (press release : MoveCameraInput)
    (st : MoveCameraState) (w : Window)
    (h1 : st.eguiContext = Option.some false)
    (h2 : st.window = Option.some w)
    (_h3 : w.cursor_options.grab_mode = CursorGrabMode.none)
    (h4 : press.middleJustPressed = true) (h5 : press.middleJustReleased = false)
    (h6 : release.middleJustReleased = true) (h7 : release.middleJustPressed = false) :
    ∃ st1 st2,
      move_camera press st = Option.some st1 ∧
      st1.window = Option.some
        { cursor_options := { grab_mode := CursorGrabMode.locked, visible := false } } ∧
      move_camera release st1 = Option.some st2 ∧
      st2.window = Option.some
        { cursor_options := { grab_mode := CursorGrabMode.none, visible := true } } := by
  have e1 : move_camera press st =
      Option.some
        { st with
          window := Option.some
            { cursor_options := { grab_mode := CursorGrabMode.locked, visible := false } },
          cameras := st.cameras.map (updateCameraTransform press) } := by
    unfold move_camera
    rw [h1]
    dsimp only
    rw [h4, h5, h2]
    simp
  have e2 : move_camera release
      { st with
        window := Option.some
          { cursor_options := { grab_mode := CursorGrabMode.locked, visible := false } },
        cameras := st.cameras.map (updateCameraTransform press) } =
      Option.some
        { st with
          window := Option.some
            { cursor_options := { grab_mode := CursorGrabMode.none, visible := true } },
          cameras := st.cameras.map (updateCameraTransform press) } := by
    unfold move_camera
    dsimp only
    rw [h1]
    dsimp only
    rw [h6, h7]
    simp
  exact ⟨_, _, e1, rfl, e2, rfl⟩

/-- C5 witness: the theorem applied to a released window with egui not
wanting pointer input, a press frame and then a release frame. -/
theorem c5_witness :
    ({ cameras := [idTransform], window := Option.some freeWindow,
       eguiContext := Option.some false } : MoveCameraState).eguiContext = Option.some false ∧
    ({ cameras := [idTransform], window := Option.some freeWindow,
       eguiContext := Option.some false } : MoveCameraState).window = Option.some freeWindow ∧
    freeWindow.cursor_options.grab_mode = CursorGrabMode.none ∧
    ({ idleInput with middleJustPressed := true }).middleJustPressed = true ∧
    ({ idleInput with middleJustPressed := true }).middleJustReleased = false ∧
    ({ idleInput with middleJustReleased := true }).middleJustReleased = true ∧
    ({ idleInput with middleJustReleased := true }).middleJustPressed = false ∧
    ∃ st1 st2,
      move_camera { idleInput with middleJustPressed := true }
        { cameras := [idTransform], window := Option.some freeWindow,
          eguiContext := Option.some false } = Option.some st1 ∧
      st1.window = Option.some
        { cursor_options := { grab_mode := CursorGrabMode.locked, visible := false } } ∧
      move_camera { idleInput with middleJustReleased := true } st1 = Option.some st2 ∧
      st2.window = Option.some
        { cursor_options := { grab_mode := CursorGrabMode.none, visible := true } } :=
  ⟨rfl, rfl, rfl, rfl, rfl, rfl, rfl,
   c5_engage_release_cycle { idleInput with middleJustPressed := true }
     { idleInput with middleJustReleased := true }
     { cameras := [idTransform], window := Option.some freeWindow,
       eguiContext := Option.some false } freeWindow rfl rfl rfl rfl rfl rfl rfl⟩

/-! Claim C6.  Suppression of engagement under UI pointer focus (lib.rs
lines 147-154). -/

/-- C6: a press-edge frame of the middle button on which egui wants pointer
input (and with no release edge) leaves the primary window, hence its cursor
grab mode and visibility, exactly unchanged. -/
theorem c6_press_suppressed (input : MoveCameraInput) (st : MoveCameraState) (w : Window)
    (h1 : st.eguiContext = Option.some true)
    (h2 : st.window = Option.some w)
    (h3 : input.middleJustPressed = true) (h4 : input.middleJustReleased = false) :
    ∃ st1, move_camera input st = Option.some st1 ∧ st1.window = Option.some w := by
  unfold move_camera
  rw [h1]
  dsimp only
  rw [h3, h4, h2]
  simp only [Bool.not_true, Bool.and_false, Bool.false_eq_true, if_false]
  split
  · exact ⟨_, rfl, rfl⟩
  · exact ⟨_, rfl, rfl⟩

/-- C6 witness: the theorem applied to a released window with egui wanting
pointer input and a press frame. -/
theorem c6_witness :
    ({ cameras := [idTransform], window := Option.some freeWindow,
       eguiContext := Option.some true } : MoveCameraState).eguiContext = Option.some true ∧
    ({ cameras := [idTransform], window := Option.some freeWindow,
       eguiContext := Option.some true } : MoveCameraState).window = Option.some freeWindow ∧
    ({ idleInput with middleJustPressed := true }).middleJustPressed = true ∧
    ({ idleInput with middleJustPressed := true }).middleJustReleased = false ∧
    ∃ st1, move_camera { idleInput with middleJustPressed := true }
        { cameras := [idTransform], window := Option.some freeWindow,
          eguiContext := Option.some true } = Option.some st1 ∧
      st1.window = Option.some freeWindow :=
  ⟨rfl, rfl, rfl, rfl,
   c6_press_suppressed { idleInput with middleJustPressed := true }
     { cameras := [idTransform], window := Option.some freeWindow,
       eguiContext := Option.some true } freeWindow rfl rfl rfl rfl⟩

/-! Claim C7.  The rotate_on_drag observer (lib.rs lines 124-127). -/

/-- C7: for every drag delta and every prior orientation of the (present)
target entity, rotate_on_drag composes the rotation by delta.x * 0.02
radians about the world vertical axis on the left of the prior orientation
(which it keeps); the composed quaternion fixes the world up vector, and a
delta.x of 10.0 gives the angle 10 * 0.02 = 0.2 radians exactly. -/
theorem c7_rotate_on_drag (delta : Vec2) (t : Transform) :
    rotate_on_drag delta (Option.some t) =
      Option.some
        { t with rotation := Quat.mul (Quat.from_rotation_y (delta.x * 0.02)) t.rotation } ∧
    Quat.mulVec3 (Quat.from_rotation_y (delta.x * 0.02)) ⟨0, 1, 0⟩ = (⟨0, 1, 0⟩ : Vec3) ∧
    Quat.from_rotation_y ((10 : ℝ) * 0.02) = Quat.from_rotation_y 0.2 := by
  refine ⟨rfl, ?_, by norm_num⟩
  have hsc := Real.sin_sq_add_cos_sq (delta.x * 0.02 / 2)
  unfold Quat.mulVec3 Quat.from_rotation_y
  dsimp only [Vec3.dot, Vec3.cross, Vec3.smul, Vec3.add]
  ext
  · ring
  · ring_nf at hsc ⊢
    linarith [hsc]
  · ring

end BevyChess
